import Mathlib

/-!
Verification of the Thumblify server request handlers
(src/server/controllers/ThumbnailController.ts) and the client
download-URL helper (src/client/src/pages/MyGeneration.tsx).

The handlers are shallowly embedded: a handler invocation is a pure
function from its request data and the results of the two external
services (the generative-image provider and the media-upload host,
both supplied as `Except` oracles) to the list of observable events it
performs, in order.  Persistence primitives (`Thumbnail.create`,
`thumbnail.save`, `findOneAndDelete`) are modelled as always
succeeding; JS `undefined`/missing fields are `Option`, and JS string
truthiness (`if (s)`) is `!s.isEmpty` on the `some` case.
-/

namespace Thumblify

/-- One stored generation record (the Thumbnail document).  `image_url`
is `none` until generation completes. -/
structure ThumbnailRecord where
  id : Nat
  userId : String
  title : String
  prompt_used : Option String
  user_prompt : Option String
  style : String
  aspect_ratio : String
  color_scheme : Option String
  text_overlay : Option Bool
  isGenerating : Bool
  image_url : Option String
deriving DecidableEq, Repr

/-- The JSON body of a POST /api/thumbnail/generate request; `Option`
fields are the ones the handler treats as possibly absent. -/
structure GenBody where
  title : String
  user_prompt : Option String
  style : String
  aspect_ratio : Option String
  color_scheme : Option String
  text_overlay : Option Bool
deriving DecidableEq, Repr

/-- inlineData of a provider response part: its `data` field may be
absent. -/
structure InlineData where
  data : Option String
deriving DecidableEq, Repr

/-- One part of the provider response candidate content. -/
structure Part where
  inlineData : Option InlineData
deriving DecidableEq, Repr

/-- Candidate content: its `parts` field may be absent. -/
structure Content where
  parts : Option (List Part)
deriving DecidableEq, Repr

/-- One response candidate: its `content` field may be absent. -/
structure Candidate where
  content : Option Content
deriving DecidableEq, Repr

/-- A provider response; models the optional-chaining source
`response?.candidates?.[0]?.content?.parts`. -/
structure GenResponse where
  candidates : Option (List Candidate)
deriving DecidableEq, Repr

/-- Node `Buffer.from(data, "base64")`, kept abstract: a buffer is
identified by the base64 source string it was decoded from. -/
structure Buffer where
  fromBase64 ::
  base64Source : String
deriving DecidableEq, Repr

/-- A JSON response body: `{ message }`, `{ success: true, thumbnail }`
or `{ success: false, message }`. -/
inductive RespBody where
  | messageOnly (msg : String)
  | successThumbnail (thumb : ThumbnailRecord)
  | failureMessage (msg : String)
deriving DecidableEq, Repr

/-- The observable actions a handler invocation performs, in order. -/
inductive Event where
  | createRecord (r : ThumbnailRecord)
  | callProvider (model : String) (prompt : String)
  | uploadBytes (b : Buffer)
  | saveRecord (r : ThumbnailRecord)
  | respond (status : Nat) (body : RespBody)
deriving DecidableEq, Repr

/-- JS truthiness of a possibly-absent string: `undefined` and `""` are
falsy. -/
def truthy : Option String → Bool
  | none => false
  | some s => !s.isEmpty

/-- JS template interpolation of a possibly-undefined lookup result:
an absent value prints as the literal text "undefined". -/
def tsInterp : Option String → String
  | some s => s
  | none => "undefined"

/-- The stylePrompts lookup table of ThumbnailController.ts. -/
def stylePrompts : String → Option String
  | "Bold & Graphic" => some "eye-catching thumbnail, bold typography, vibrant colors, expressive facial reaction, dramatic lighting, high contrast, click-worthy composition, professional style"
  | "Tech/Futuristic" => some "futuristic thumbnail, sleek modern design, digital UI elements, glowing accents, holographic effects, cyber-tech aesthetic, sharp lighting, high-tech atmosphere"
  | "Minimalist" => some "minimalist thumbnail, clean layout, simple shapes, limited color palette, plenty of negative space, modern flat design, clear focal point"
  | "Photorealistic" => some "photorealistic thumbnail, ultra-realistic lighting, natural skin tones, candid moment, DSLR-style photography, lifestyle realism, shallow depth of field"
  | "Illustrated" => some "illustrated thumbnail, custom digital illustration, stylized characters, bold outlines, vibrant colors, creative cartoon or vector art style"
  | _ => none

/-- The colorSchemeDescriptions lookup table of ThumbnailController.ts. -/
def colorSchemeDescriptions : String → Option String
  | "vibrant" => some "vibrant and energetic colors, high saturation, bold contrasts, eye-catching palette"
  | "sunset" => some "warm sunset tones, orange pink and purple hues, soft gradients, cinematic glow"
  | "forest" => some "natural green tones, earthy colors, calm and organic palette, fresh atmosphere"
  | "neon" => some "neon glow effects, electric blues and pinks, cyberpunk lighting, high contrast glow"
  | "purple" => some "purple-dominant color palette, magenta and violet tones, modern and stylish mood"
  | "monochrome" => some "black and white color scheme, high contrast, dramatic lighting, timeless aesthetic"
  | "ocean" => some "cool blue and teal tones, aquatic color palette, fresh and clean atmosphere"
  | "pastel" => some "soft pastel colors, low saturation, gentle tones, calm and friendly aesthetic"
  | _ => none

/-- The prompt-building block of generateThumbnail, mirroring the
sequential `prompt += ...` statements of the source. -/
def buildPrompt (style : String) (color_scheme user_prompt : Option String)
    (aspect_ratio title : String) : String :=
  let prompt := "Create a " ++ tsInterp (stylePrompts style) ++
    " thumbnail for \"" ++ title ++ "\". "
  let prompt := if truthy color_scheme then
      prompt ++ "Use a " ++
        tsInterp (colorSchemeDescriptions (color_scheme.getD "")) ++
        " color scheme. "
    else prompt
  let prompt := if truthy user_prompt then
      prompt ++ "Additional details: " ++ user_prompt.getD "" ++ ". "
    else prompt
  prompt ++ "The thumbnail should be " ++ aspect_ratio ++
    ", visually stunning, bold, professional, and optimized for maximum click-through rate."

/-- Models `response?.candidates?.[0]?.content?.parts` of the source. -/
def getParts (r : GenResponse) : Option (List Part) :=
  match r.candidates with
  | none => none
  | some cs =>
    match cs.head? with
    | none => none
    | some c =>
      match c.content with
      | none => none
      | some ct => ct.parts

/-- The truthiness test `part.inlineData?.data` of the source loop:
yields the data string when present and non-empty. -/
def partData (p : Part) : Option String :=
  match p.inlineData with
  | none => none
  | some i =>
    match i.data with
    | none => none
    | some d => if d.isEmpty then none else some d

/-- The extraction loop `for (const part of parts) ...` of the source:
each part with truthy inlineData.data overwrites imageBuffer. -/
def extractImage (parts : List Part) : Option Buffer :=
  parts.foldl
    (fun acc p =>
      match partData p with
      | some d => some (Buffer.fromBase64 d)
      | none => acc)
    none

/-- Models `error.message || "Failed to generate thumbnail"` of the catch
block: an empty message is falsy and replaced by the fallback text. -/
def jsErrMessage (m : String) : String :=
  if m.isEmpty then "Failed to generate thumbnail" else m

/-- The generateThumbnail handler of ThumbnailController.ts as an
event trace.  `session` is `req.session.userId`, `newId` the id the
store assigns to the created document, `providerResult` the outcome of
`ai.models.generateContent` (the generation config passed there, fixed
sampling and safety settings plus the aspect ratio, does not influence
control flow and is elided), and `uploadResult` the outcome of the
Cloudinary upload (its `secure_url` on success). -/
def generateThumbnail (session : Option String) (body : GenBody)
    (newId : Nat) (providerResult : Except String GenResponse)
    (uploadResult : Except String String) : List Event :=
  match session with
  | none => [.respond 401 (.messageOnly "Unauthorized")]
  | some userId =>
    let aspect_ratio := body.aspect_ratio.getD "16:9"
    let r0 : ThumbnailRecord :=
      { id := newId, userId := userId, title := body.title,
        prompt_used := body.user_prompt, user_prompt := body.user_prompt,
        style := body.style, aspect_ratio := aspect_ratio,
        color_scheme := body.color_scheme, text_overlay := body.text_overlay,
        isGenerating := true, image_url := none }
    let prompt := buildPrompt body.style body.color_scheme body.user_prompt
      aspect_ratio body.title
    Event.createRecord r0 ::
    Event.callProvider "gemini-3-pro-image-preview" prompt ::
    (match providerResult with
     | .error e => [.respond 500 (.failureMessage (jsErrMessage e))]
     | .ok resp =>
       match getParts resp with
       | none => [.respond 500 (.failureMessage (jsErrMessage "Invalid AI response"))]
       | some parts =>
         match extractImage parts with
         | none => [.respond 500 (.failureMessage (jsErrMessage "No image returned from AI"))]
         | some buf =>
           Event.uploadBytes buf ::
           (match uploadResult with
            | .error e => [.respond 500 (.failureMessage (jsErrMessage e))]
            | .ok secure_url =>
              let r1 : ThumbnailRecord :=
                { r0 with image_url := some secure_url, isGenerating := false }
              [Event.saveRecord r1, Event.respond 200 (.successThumbnail r1)]))

/-- Models the `findOneAndDelete` store query of the source: removes the
first stored record matching both the id and the owner, if any. -/
def findOneAndDelete (store : List ThumbnailRecord) (id : Nat)
    (userId : String) : List ThumbnailRecord :=
  match store with
  | [] => []
  | r :: rest =>
    if r.id = id ∧ r.userId = userId then rest
    else r :: findOneAndDelete rest id userId

/-- The deleteThumbnail handler of ThumbnailController.ts: returns the
store after the invocation together with the HTTP status and body. -/
def deleteThumbnail (session : Option String) (id : Nat)
    (store : List ThumbnailRecord) :
    List ThumbnailRecord × Nat × RespBody :=
  match session with
  | none => (store, 401, .messageOnly "Unauthorized")
  | some userId =>
    (findOneAndDelete store id userId, 200,
      .messageOnly "Thumbnail deleted successfully")

/-- The record states a trace writes to the store, in order. -/
def recordStates (tr : List Event) : List ThumbnailRecord :=
  tr.filterMap fun e =>
    match e with
    | .createRecord r => some r
    | .saveRecord r => some r
    | _ => none

/-- The buffers a trace uploads, in order. -/
def uploadsOf (tr : List Event) : List Buffer :=
  tr.filterMap fun e =>
    match e with
    | .uploadBytes b => some b
    | _ => none

/-- The responses a trace sends, in order. -/
def respondsOf (tr : List Event) : List (Nat × RespBody) :=
  tr.filterMap fun e =>
    match e with
    | .respond s b => some (s, b)
    | _ => none

/-- The records a trace saves (post-creation updates), in order. -/
def savesOf (tr : List Event) : List ThumbnailRecord :=
  tr.filterMap fun e =>
    match e with
    | .saveRecord r => some r
    | _ => none

/-- The client download-URL helper `handleDownload` of
MyGeneration.tsx: bails out on a missing/empty url, otherwise rewrites
the first `/upload/` to `/upload/fl_attachment/` as JS
`String.replace` with a string pattern does. -/
def replaceFirstL (pat repl : List Char) : List Char → List Char
  | [] => if pat = [] then repl else []
  | c :: rest =>
    if (c :: rest).take pat.length = pat then
      repl ++ (c :: rest).drop pat.length
    else c :: replaceFirstL pat repl rest

/-- JS `s.replace(pat, repl)` with a plain string pattern: replaces the
first occurrence only, or returns the string unchanged. -/
def jsReplace (s pat repl : String) : String :=
  String.mk (replaceFirstL pat.data repl.data s.data)

/-- Number of (possibly overlapping) occurrences of `pat` in a list. -/
def countOccL (pat : List Char) : List Char → Nat
  | [] => 0
  | c :: rest =>
    (if (c :: rest).take pat.length = pat then 1 else 0) + countOccL pat rest

/-- Number of occurrences of `pat` in `s`. -/
def countOcc (s pat : String) : Nat :=
  countOccL pat.data s.data

/-- The download helper of MyGeneration.tsx (and the identical
onDownload of the preview panel): `none` models the early return on a
falsy url. -/
def handleDownload (image_url : String) : Option String :=
  if image_url.isEmpty then none
  else some (jsReplace image_url "/upload/" "/upload/fl_attachment/")

/-! ### Structural lemmas about the generate trace -/

/-- The record the generate handler creates, before the provider call. -/
def initialRecord (uid : String) (body : GenBody) (newId : Nat) :
    ThumbnailRecord :=
  { id := newId, userId := uid, title := body.title,
    prompt_used := body.user_prompt, user_prompt := body.user_prompt,
    style := body.style, aspect_ratio := body.aspect_ratio.getD "16:9",
    color_scheme := body.color_scheme, text_overlay := body.text_overlay,
    isGenerating := true, image_url := none }

/-- Any authenticated generate invocation first creates the in-progress
record, then calls the provider with the built prompt. -/
theorem generate_trace_shape (uid : String) (body : GenBody) (newId : Nat)
    (pr : Except String GenResponse) (ur : Except String String) :
    ∃ rest,
      generateThumbnail (some uid) body newId pr ur =
        Event.createRecord
          { id := newId, userId := uid, title := body.title,
            prompt_used := body.user_prompt, user_prompt := body.user_prompt,
            style := body.style, aspect_ratio := body.aspect_ratio.getD "16:9",
            color_scheme := body.color_scheme,
            text_overlay := body.text_overlay,
            isGenerating := true, image_url := none } ::
        Event.callProvider "gemini-3-pro-image-preview"
          (buildPrompt body.style body.color_scheme body.user_prompt
            (body.aspect_ratio.getD "16:9") body.title) :: rest :=
  ⟨_, rfl⟩

/-- The sequentially built prompt, regrouped as the four clauses in
order: style clause, optional color clause, optional details clause,
closing clause. -/
theorem buildPrompt_clauses (style : String) (cs up : Option String)
    (ar t : String) :
    buildPrompt style cs up ar t =
      ("Create a " ++ tsInterp (stylePrompts style) ++
          " thumbnail for \"" ++ t ++ "\". ") ++
      (if truthy cs then
          "Use a " ++ tsInterp (colorSchemeDescriptions (cs.getD "")) ++
            " color scheme. "
        else "") ++
      (if truthy up then
          "Additional details: " ++ up.getD "" ++ ". "
        else "") ++
      ("The thumbnail should be " ++ ar ++
        ", visually stunning, bold, professional, and optimized for maximum click-through rate.") := by
  unfold buildPrompt
  cases truthy cs <;> cases truthy up <;>
    simp [String.append_assoc, String.empty_append] <;> rfl

/-- C1: for every generate request carrying an authenticated session,
the handler creates the GenerationRecord with the in-progress flag set
and no image reference strictly before the provider is invoked: the
`createRecord` event is the first event of the trace and the
`callProvider` event comes after it, whatever the provider and upload
oracles later do. -/
theorem generate_creates_in_progress_record_before_provider
    (uid : String) (body : GenBody) (newId : Nat)
    (pr : Except String GenResponse) (ur : Except String String) :
    ∃ r p rest,
      generateThumbnail (some uid) body newId pr ur =
        Event.createRecord r ::
          Event.callProvider "gemini-3-pro-image-preview" p :: rest ∧
      r.isGenerating = true ∧ r.image_url = none ∧ r.id = newId := by
  obtain ⟨rest, h⟩ := generate_trace_shape uid body newId pr ur
  exact ⟨_, _, rest, h, rfl, rfl, rfl⟩

/-- C6: every authenticated delete request, including one whose id
matches no stored record, responds 200 with the generic success
message and never a distinct not-found error. -/
theorem delete_always_responds_generic_success (u : String) (id : Nat)
    (store : List ThumbnailRecord) :
    (deleteThumbnail (some u) id store).2 =
      (200, RespBody.messageOnly "Thumbnail deleted successfully") :=
  rfl

/-- C7: the prompt sent to the provider is the concatenation, in this
order, of the style-table clause, a color-scheme clause exactly when a
(non-empty) color scheme is supplied, a details clause exactly when a
(non-empty) user prompt is supplied, and the fixed closing clause with
the aspect ratio interpolated. -/
theorem generate_prompt_is_ordered_clause_concatenation
    (uid : String) (body : GenBody) (newId : Nat)
    (pr : Except String GenResponse) (ur : Except String String) :
    ∃ r rest,
      generateThumbnail (some uid) body newId pr ur =
        Event.createRecord r ::
        Event.callProvider "gemini-3-pro-image-preview"
          (("Create a " ++ tsInterp (stylePrompts body.style) ++
              " thumbnail for \"" ++ body.title ++ "\". ") ++
           (if truthy body.color_scheme then
              "Use a " ++
                tsInterp (colorSchemeDescriptions (body.color_scheme.getD "")) ++
                " color scheme. "
            else "") ++
           (if truthy body.user_prompt then
              "Additional details: " ++ body.user_prompt.getD "" ++ ". "
            else "") ++
           ("The thumbnail should be " ++ body.aspect_ratio.getD "16:9" ++
              ", visually stunning, bold, professional, and optimized for maximum click-through rate.")) ::
        rest := by
  obtain ⟨rest, h⟩ := generate_trace_shape uid body newId pr ur
  rw [buildPrompt_clauses] at h
  exact ⟨_, rest, h⟩

/-- C10: a generate request whose body omits the aspect ratio is not
rejected: the created record stores the default "16:9" and the built
prompt interpolates "16:9" into the closing clause. -/
theorem generate_omitted_aspect_ratio_defaults
    (uid title style : String) (up cs : Option String) (t_ov : Option Bool)
    (newId : Nat) (pr : Except String GenResponse)
    (ur : Except String String) :
    ∃ r p rest,
      generateThumbnail (some uid)
        { title := title, user_prompt := up, style := style,
          aspect_ratio := none, color_scheme := cs, text_overlay := t_ov }
        newId pr ur =
        Event.createRecord r ::
          Event.callProvider "gemini-3-pro-image-preview" p :: rest ∧
      r.aspect_ratio = "16:9" ∧
      ∃ pre, p = pre ++
        "The thumbnail should be 16:9, visually stunning, bold, professional, and optimized for maximum click-through rate." := by
  obtain ⟨rest, h⟩ :=
    generate_trace_shape uid
      { title := title, user_prompt := up, style := style,
        aspect_ratio := none, color_scheme := cs, text_overlay := t_ov }
      newId pr ur
  rw [buildPrompt_clauses] at h
  exact ⟨_, _, rest, h, rfl, _, rfl⟩

/-! ### Record lifecycle -/

/-- Case analysis of the record states a generate invocation writes:
nothing (unauthenticated), only the in-progress creation, or the
creation followed by exactly one save that sets the image url and
clears the flag. -/
theorem recordStates_generate (session : Option String) (body : GenBody)
    (newId : Nat) (pr : Except String GenResponse)
    (ur : Except String String) :
    recordStates (generateThumbnail session body newId pr ur) = [] ∨
    (∃ r0, recordStates (generateThumbnail session body newId pr ur) = [r0] ∧
      r0.isGenerating = true ∧ r0.image_url = none) ∨
    (∃ r0 u, recordStates (generateThumbnail session body newId pr ur) =
        [r0, { r0 with isGenerating := false, image_url := some u }] ∧
      r0.isGenerating = true ∧ r0.image_url = none) := by
  cases session with
  | none => left; rfl
  | some uid =>
    cases pr with
    | error e => right; left; exact ⟨_, rfl, rfl, rfl⟩
    | ok resp =>
      cases hg : getParts resp with
      | none =>
        right; left
        exact ⟨initialRecord uid body newId,
          by simp [generateThumbnail, recordStates, hg, initialRecord],
          rfl, rfl⟩
      | some parts =>
        cases he : extractImage parts with
        | none =>
          right; left
          exact ⟨initialRecord uid body newId,
            by simp [generateThumbnail, recordStates, hg, he, initialRecord],
            rfl, rfl⟩
        | some buf =>
          cases ur with
          | error e =>
            right; left
            exact ⟨initialRecord uid body newId,
              by simp [generateThumbnail, recordStates, hg, he, initialRecord],
              rfl, rfl⟩
          | ok url =>
            right; right
            exact ⟨initialRecord uid body newId, url,
              by simp [generateThumbnail, recordStates, hg, he, initialRecord],
              rfl, rfl⟩

/-- Whatever the caller and id, findOneAndDelete only removes: the
resulting store is a sublist of the original. -/
theorem findOneAndDelete_sublist (store : List ThumbnailRecord) (id : Nat)
    (u : String) : (findOneAndDelete store id u).Sublist store := by
  induction store with
  | nil => exact List.Sublist.refl []
  | cons a rest ih =>
    unfold findOneAndDelete
    by_cases h : a.id = id ∧ a.userId = u
    · rw [if_pos h]
      exact List.sublist_cons_self a rest
    · rw [if_neg h]
      exact ih.cons₂ a

/-- C2: over the handler invocations touching one record — the
generate invocation that creates it and any delete invocations — the
image reference is written at most once; every consecutive pair of
written states has the flag going true to false exactly when the image
reference changes and never false to true; and a delete invocation
only removes records, never rewriting any field. -/
theorem record_image_written_once_with_flag_transition
    (session : Option String) (body : GenBody) (newId : Nat)
    (pr : Except String GenResponse) (ur : Except String String)
    (dsession : Option String) (did : Nat)
    (store : List ThumbnailRecord) :
    ((recordStates (generateThumbnail session body newId pr ur)).filter
        (fun r => r.image_url.isSome)).length ≤ 1 ∧
    List.Chain'
      (fun a b =>
        (b.image_url ≠ a.image_url →
          a.isGenerating = true ∧ b.isGenerating = false) ∧
        (a.isGenerating = false → b.isGenerating = false))
      (recordStates (generateThumbnail session body newId pr ur)) ∧
    (deleteThumbnail dsession did store).1.Sublist store := by
  refine ⟨?_, ?_, ?_⟩
  · rcases recordStates_generate session body newId pr ur with
      h | ⟨r0, h, h1, h2⟩ | ⟨r0, u, h, h1, h2⟩
    · simp [h]
    · simp [h, h2]
    · simp [h, h2]
  · rcases recordStates_generate session body newId pr ur with
      h | ⟨r0, h, h1, h2⟩ | ⟨r0, u, h, h1, h2⟩
    · simp [h]
    · simp [h]
    · simp [h, h1, h2, List.chain'_cons]
  · cases dsession with
    | none => exact List.Sublist.refl store
    | some u => exact findOneAndDelete_sublist store did u

/-- A record owned by someone other than the caller survives
findOneAndDelete. -/
theorem mem_findOneAndDelete_of_ne_owner (store : List ThumbnailRecord)
    (id : Nat) (u : String) (r : ThumbnailRecord) (hmem : r ∈ store)
    (hown : r.userId ≠ u) : r ∈ findOneAndDelete store id u := by
  induction store with
  | nil => cases hmem
  | cons a rest ih =>
    unfold findOneAndDelete
    by_cases h : a.id = id ∧ a.userId = u
    · rw [if_pos h]
      rcases List.mem_cons.mp hmem with rfl | hr
      · exact absurd h.2 hown
      · exact hr
    · rw [if_neg h]
      rcases List.mem_cons.mp hmem with rfl | hr
      · exact List.mem_cons_self _ _
      · exact List.mem_cons_of_mem _ (ih hr)

/-- C3: the delete handler removes a record only when its owner equals
the authenticated caller: a record owned by a different user is still
stored after the invocation, and the response carries only the generic
message, never record data. -/
theorem delete_never_removes_or_returns_foreign_record
    (caller : String) (id : Nat) (store : List ThumbnailRecord)
    (r : ThumbnailRecord) (hmem : r ∈ store) (hown : r.userId ≠ caller) :
    r ∈ (deleteThumbnail (some caller) id store).1 ∧
      (deleteThumbnail (some caller) id store).2 =
        (200, RespBody.messageOnly "Thumbnail deleted successfully") :=
  ⟨mem_findOneAndDelete_of_ne_owner store id caller r hmem hown, rfl⟩

/-- A record stored for user "alice". -/
def rAlice : ThumbnailRecord :=
  { id := 1, userId := "alice", title := "10 sleep tips",
    prompt_used := none, user_prompt := none, style := "Minimalist",
    aspect_ratio := "1:1", color_scheme := some "pastel",
    text_overlay := some true, isGenerating := false,
    image_url := some "https://res.cloudinary.com/demo/image/upload/v1/thumbnails/a.png" }

/-- Concrete instance of C3: caller "bob" cannot delete the record of
"alice". -/
theorem delete_never_removes_or_returns_foreign_record_witness :
    rAlice ∈ (deleteThumbnail (some "bob") 1 [rAlice]).1 ∧
      (deleteThumbnail (some "bob") 1 [rAlice]).2 =
        (200, RespBody.messageOnly "Thumbnail deleted successfully") :=
  delete_never_removes_or_returns_foreign_record "bob" 1 [rAlice] rAlice
    (by decide) (by decide)

/-! ### Image extraction -/

/-- The extraction loop generalized over its accumulator: the result is
the last truthy payload if any, else the accumulator. -/
theorem extractImage_foldl (parts : List Part) (acc : Option Buffer) :
    parts.foldl
      (fun acc p =>
        match partData p with
        | some d => some (Buffer.fromBase64 d)
        | none => acc) acc =
      (match (parts.filterMap partData).getLast? with
       | some d => some (Buffer.fromBase64 d)
       | none => acc) := by
  induction parts generalizing acc with
  | nil => rfl
  | cons p ps ih =>
    rw [List.foldl_cons, ih]
    cases hd : partData p with
    | none => simp [List.filterMap_cons, hd]
    | some d =>
      cases hfl : ps.filterMap partData with
      | nil => simp [List.filterMap_cons, hd, hfl]
      | cons x xs =>
        simp only [List.filterMap_cons, hd, hfl, List.getLast?_cons_cons]
        cases h2 : (x :: xs).getLast? with
        | none => simp [List.getLast?_eq_none_iff] at h2
        | some y => rfl

/-- The extraction loop keeps the LAST inline payload of the parts
list, not the first. -/
theorem extractImage_eq_last (parts : List Part) :
    extractImage parts =
      ((parts.filterMap partData).getLast?).map Buffer.fromBase64 := by
  rw [extractImage, extractImage_foldl]
  cases (parts.filterMap partData).getLast? <;> rfl

/-- A provider response whose single candidate content has two inline
image payloads: "AAAA" first, "BBBB" second. -/
def twoPartResp : GenResponse :=
  ⟨some [⟨some ⟨some [⟨some ⟨some "AAAA"⟩⟩, ⟨some ⟨some "BBBB"⟩⟩]⟩⟩]⟩

/-- A minimal generate request body. -/
def simpleBody : GenBody :=
  { title := "t", user_prompt := none, style := "Minimalist",
    aspect_ratio := none, color_scheme := none, text_overlay := none }

/-- C4 counterexample: on a response carrying two inline payloads the
handler uploads the bytes of the SECOND (last) payload, not of the
first one, refuting the claim as stated. -/
theorem generate_uploads_first_payload_counterexample :
    getParts twoPartResp =
      some [⟨some ⟨some "AAAA"⟩⟩, ⟨some ⟨some "BBBB"⟩⟩] ∧
    uploadsOf (generateThumbnail (some "u") simpleBody 0
        (Except.ok twoPartResp) (Except.ok "url")) =
      [Buffer.fromBase64 "BBBB"] ∧
    Buffer.fromBase64 "BBBB" ≠ Buffer.fromBase64 "AAAA" :=
  ⟨by decide, by decide, by decide⟩

/-- C4 amended: with a candidate content parts list present, the
handler uploads the bytes of the last inline image payload of the
list; with a parts list holding no inline payload it uploads nothing
and fails with the internal "No image returned from AI" error. -/
theorem generate_uploads_last_payload_or_fails
    (uid : String) (body : GenBody) (newId : Nat)
    (ur : Except String String) (resp : GenResponse) (parts : List Part)
    (hp : getParts resp = some parts) :
    (∀ d, (parts.filterMap partData).getLast? = some d →
      uploadsOf (generateThumbnail (some uid) body newId (Except.ok resp) ur) =
        [Buffer.fromBase64 d]) ∧
    ((parts.filterMap partData).getLast? = none →
      uploadsOf (generateThumbnail (some uid) body newId (Except.ok resp) ur) =
        [] ∧
      (500, RespBody.failureMessage "No image returned from AI") ∈
        respondsOf (generateThumbnail (some uid) body newId
          (Except.ok resp) ur)) := by
  constructor
  · intro d hd
    have he : extractImage parts = some (Buffer.fromBase64 d) := by
      rw [extractImage_eq_last, hd]; rfl
    cases ur <;> simp [generateThumbnail, uploadsOf, hp, he]
  · intro hd
    have he : extractImage parts = none := by
      rw [extractImage_eq_last, hd]; rfl
    have hmsg : jsErrMessage "No image returned from AI" =
        "No image returned from AI" := rfl
    constructor
    · simp [generateThumbnail, uploadsOf, hp, he]
    · simp [generateThumbnail, respondsOf, hp, he, hmsg]

/-- Concrete instance of the amended C4 on the two-payload response:
the bytes of the last payload are uploaded. -/
theorem generate_uploads_last_payload_or_fails_witness :
    uploadsOf (generateThumbnail (some "u") simpleBody 0
        (Except.ok twoPartResp) (Except.ok "url")) =
      [Buffer.fromBase64 "BBBB"] :=
  (generate_uploads_last_payload_or_fails "u" simpleBody 0 (Except.ok "url")
      twoPartResp [⟨some ⟨some "AAAA"⟩⟩, ⟨some ⟨some "BBBB"⟩⟩]
      (by decide)).1 "BBBB" (by decide)

/-! ### Failure handling -/

/-- C5 counterexample: a provider failure carrying an EMPTY error
message is answered 500 with the fixed fallback text, not with the
error message itself, refuting "carrying the error message" as
stated. -/
theorem generate_failure_passes_message_counterexample :
    respondsOf (generateThumbnail (some "u") simpleBody 0
        (Except.error "") (Except.ok "url")) =
      [(500, RespBody.failureMessage "Failed to generate thumbnail")] ∧
    "Failed to generate thumbnail" ≠ "" :=
  ⟨by decide, by decide⟩

/-- C5 amended: every authenticated generate invocation in which the
provider call, image extraction, or media upload fails — the provider
throws with message e, the response has no candidate content parts (an
"Invalid AI response" failure), the parts hold no inline payload (a
"No image returned from AI" failure), or the upload rejects with
message e — responds exactly with status 500 carrying that error
message passed through when non-empty (the fixed fallback text when
empty), and the created record is left unchanged: it is never saved,
and every record state written still has the in-progress flag set and
no image reference. -/
theorem generate_failure_responds_500_and_leaves_record
    (uid : String) (body : GenBody) (newId : Nat)
    (pr : Except String GenResponse) (ur : Except String String)
    (e : String)
    (hf : pr = Except.error e ∨
      (∃ resp, pr = Except.ok resp ∧ getParts resp = none ∧
        e = "Invalid AI response") ∨
      (∃ resp parts, pr = Except.ok resp ∧ getParts resp = some parts ∧
        extractImage parts = none ∧ e = "No image returned from AI") ∨
      (∃ resp parts buf, pr = Except.ok resp ∧ getParts resp = some parts ∧
        extractImage parts = some buf ∧ ur = Except.error e)) :
    respondsOf (generateThumbnail (some uid) body newId pr ur) =
      [(500, RespBody.failureMessage (jsErrMessage e))] ∧
    savesOf (generateThumbnail (some uid) body newId pr ur) = [] ∧
    (∀ r, r ∈ recordStates (generateThumbnail (some uid) body newId pr ur) →
      r.isGenerating = true ∧ r.image_url = none) := by
  rcases hf with rfl | ⟨resp, rfl, hg, rfl⟩ |
    ⟨resp, parts, rfl, hg, he, rfl⟩ | ⟨resp, parts, buf, rfl, hg, he, rfl⟩
  · refine ⟨rfl, rfl, ?_⟩
    intro r hr
    simp [generateThumbnail, recordStates] at hr
    simp [hr]
  · refine ⟨?_, ?_, ?_⟩
    · simp [generateThumbnail, respondsOf, hg]
    · simp [generateThumbnail, savesOf, hg]
    · intro r hr
      simp [generateThumbnail, recordStates, hg] at hr
      simp [hr]
  · refine ⟨?_, ?_, ?_⟩
    · simp [generateThumbnail, respondsOf, hg, he]
    · simp [generateThumbnail, savesOf, hg, he]
    · intro r hr
      simp [generateThumbnail, recordStates, hg, he] at hr
      simp [hr]
  · refine ⟨?_, ?_, ?_⟩
    · simp [generateThumbnail, respondsOf, hg, he]
    · simp [generateThumbnail, savesOf, hg, he]
    · intro r hr
      simp [generateThumbnail, recordStates, hg, he] at hr
      simp [hr]

/-- Concrete instance of the amended C5: a provider failure with
message "boom" is answered 500 with "boom" passed through, nothing is
saved, and the one written record state is still in progress with no
image. -/
theorem generate_failure_responds_500_and_leaves_record_witness :
    respondsOf (generateThumbnail (some "u") simpleBody 0
        (Except.error "boom") (Except.ok "url")) =
      [(500, RespBody.failureMessage (jsErrMessage "boom"))] ∧
    savesOf (generateThumbnail (some "u") simpleBody 0
        (Except.error "boom") (Except.ok "url")) = [] ∧
    (∀ r, r ∈ recordStates (generateThumbnail (some "u") simpleBody 0
        (Except.error "boom") (Except.ok "url")) →
      r.isGenerating = true ∧ r.image_url = none) :=
  generate_failure_responds_500_and_leaves_record "u" simpleBody 0
    (Except.error "boom") (Except.ok "url") "boom" (Or.inl rfl)

/-! ### Occurrence counting and first-occurrence replacement -/

/-- The data of an appended string is the appended data. -/
theorem data_append (a b : String) : (a ++ b).data = a.data ++ b.data := rfl

/-- A pattern sitting at the front is counted. -/
theorem countOccL_pos_head (pat : List Char) (hp : pat ≠ []) (b : List Char) :
    0 < countOccL pat (pat ++ b) := by
  cases pat with
  | nil => exact absurd rfl hp
  | cons c cs =>
    rw [List.cons_append, countOccL, if_pos]
    · omega
    · show (c :: (cs ++ b)).take (c :: cs).length = c :: cs
      simp [List.take_left]

/-- Occurrences survive prepending. -/
theorem countOccL_pos_append (pat a b : List Char)
    (h : 0 < countOccL pat b) : 0 < countOccL pat (a ++ b) := by
  induction a with
  | nil => exact h
  | cons c a2 ih =>
    rw [List.cons_append, countOccL]
    exact Nat.lt_of_lt_of_le ih (Nat.le_add_left _ _)

/-- A positive occurrence count yields a decomposition around the
pattern. -/
theorem exists_split_of_countOccL_pos (pat : List Char) :
    ∀ s : List Char, 0 < countOccL pat s → ∃ x y, s = x ++ pat ++ y := by
  intro s
  induction s with
  | nil => intro h; simp [countOccL] at h
  | cons c rest ih =>
    intro h
    rw [countOccL] at h
    by_cases ht : (c :: rest).take pat.length = pat
    · refine ⟨[], (c :: rest).drop pat.length, ?_⟩
      rw [List.nil_append]
      have hsplit := List.take_append_drop pat.length (c :: rest)
      rw [ht] at hsplit
      exact hsplit.symm
    · rw [if_neg ht] at h
      obtain ⟨x, y, hxy⟩ := ih (by omega)
      exact ⟨c :: x, y, by rw [List.cons_append, List.cons_append, hxy]⟩

/-- replaceFirstL rewrites exactly the first occurrence of the
pattern: the decomposition point is minimal and every character
outside the replaced occurrence is kept. -/
theorem replaceFirstL_first_split (pat repl : List Char) (hp : pat ≠ []) :
    ∀ s : List Char, (∃ x y, s = x ++ pat ++ y) →
      ∃ x y, s = x ++ pat ++ y ∧
        (∀ x2 y2, s = x2 ++ pat ++ y2 → x.length ≤ x2.length) ∧
        replaceFirstL pat repl s = x ++ repl ++ y := by
  intro s
  induction s with
  | nil =>
    intro h
    obtain ⟨x, y, hxy⟩ := h
    obtain ⟨h1, -⟩ := List.append_eq_nil.mp hxy.symm
    exact absurd (List.append_eq_nil.mp h1).2 hp
  | cons c rest ih =>
    intro h
    by_cases ht : (c :: rest).take pat.length = pat
    · refine ⟨[], (c :: rest).drop pat.length, ?_, ?_, ?_⟩
      · rw [List.nil_append]
        have hsplit := List.take_append_drop pat.length (c :: rest)
        rw [ht] at hsplit
        exact hsplit.symm
      · intro x2 y2 _
        exact Nat.zero_le _
      · rw [replaceFirstL, if_pos ht, List.nil_append]
    · obtain ⟨x, y, hxy⟩ := h
      cases x with
      | nil =>
        rw [List.nil_append] at hxy
        rw [hxy] at ht
        exact absurd (by simp [List.take_left]) ht
      | cons c2 x2 =>
        rw [List.cons_append, List.cons_append, List.cons_eq_cons] at hxy
        obtain ⟨rfl, hrest⟩ := hxy
        obtain ⟨x0, y0, h1, hmin, hrepl⟩ :=
          ih ⟨x2, y, by rw [hrest, List.append_assoc]⟩
        refine ⟨c :: x0, y0, ?_, ?_, ?_⟩
        · rw [List.cons_append, List.cons_append, ← h1]
        · intro x3 y3 hxy3
          cases x3 with
          | nil =>
            rw [List.nil_append] at hxy3
            rw [hxy3] at ht
            exact absurd (by simp [List.take_left]) ht
          | cons c4 x4 =>
            rw [List.cons_append, List.cons_append, List.cons_eq_cons] at hxy3
            exact Nat.succ_le_succ (hmin x4 y3 hxy3.2)
        · rw [replaceFirstL, if_neg ht, hrepl, List.cons_append,
            List.cons_append]

/-- C9 counterexample: a stored url that already contains
"/upload/fl_attachment/" after its first "/upload/" segment yields a
download url containing "/upload/fl_attachment/" twice, refuting
"exactly once" as stated. -/
theorem handleDownload_exactly_once_counterexample :
    0 < countOcc "https://h/upload/a/upload/fl_attachment/b.png" "/upload/" ∧
    handleDownload "https://h/upload/a/upload/fl_attachment/b.png" =
      some "https://h/upload/fl_attachment/a/upload/fl_attachment/b.png" ∧
    countOcc "https://h/upload/fl_attachment/a/upload/fl_attachment/b.png"
        "/upload/fl_attachment/" = 2 :=
  ⟨by decide, by decide, by decide⟩

/-- C9 amended: for every url containing "/upload/", the download url
is the original with the FIRST occurrence of "/upload/" replaced by
"/upload/fl_attachment/" — every character outside that occurrence is
unchanged — and it contains "/upload/fl_attachment/" at least once;
more than one occurrence is possible when the original already
contains such text later. -/
theorem handleDownload_replaces_first_upload_occurrence (url : String)
    (h : 0 < countOcc url "/upload/") :
    ∃ x y : List Char,
      url.data = x ++ "/upload/".data ++ y ∧
      (∀ x2 y2 : List Char, url.data = x2 ++ "/upload/".data ++ y2 →
        x.length ≤ x2.length) ∧
      handleDownload url =
        some (String.mk (x ++ "/upload/fl_attachment/".data ++ y)) ∧
      0 < countOcc (String.mk (x ++ "/upload/fl_attachment/".data ++ y))
          "/upload/fl_attachment/" := by
  have hp : "/upload/".data ≠ [] := by decide
  obtain ⟨x, y, hxy, hmin, hrepl⟩ :=
    replaceFirstL_first_split "/upload/".data "/upload/fl_attachment/".data
      hp url.data (exists_split_of_countOccL_pos "/upload/".data url.data h)
  refine ⟨x, y, hxy, hmin, ?_, ?_⟩
  · have hne : url.isEmpty = false := by
      rcases he : url.isEmpty with _ | _
      · rfl
      · rw [(String.isEmpty_iff url).mp he] at hxy
        obtain ⟨h1, -⟩ := List.append_eq_nil.mp hxy.symm
        exact absurd (List.append_eq_nil.mp h1).2 hp
    rw [handleDownload, if_neg (by simp [hne]), jsReplace, hrepl]
  · show 0 < countOccL "/upload/fl_attachment/".data
      (x ++ "/upload/fl_attachment/".data ++ y)
    rw [List.append_assoc]
    exact countOccL_pos_append _ x _
      (countOccL_pos_head "/upload/fl_attachment/".data (by decide) y)

/-- Concrete instance of the amended C9 on a typical Cloudinary url. -/
theorem handleDownload_replaces_first_upload_occurrence_witness :
    ∃ x y : List Char,
      ("https://res.cloudinary.com/demo/image/upload/v1/thumbnails/a.png" :
          String).data = x ++ "/upload/".data ++ y ∧
      (∀ x2 y2 : List Char,
        ("https://res.cloudinary.com/demo/image/upload/v1/thumbnails/a.png" :
            String).data = x2 ++ "/upload/".data ++ y2 →
        x.length ≤ x2.length) ∧
      handleDownload
          "https://res.cloudinary.com/demo/image/upload/v1/thumbnails/a.png" =
        some (String.mk (x ++ "/upload/fl_attachment/".data ++ y)) ∧
      0 < countOcc (String.mk (x ++ "/upload/fl_attachment/".data ++ y))
          "/upload/fl_attachment/" :=
  handleDownload_replaces_first_upload_occurrence
    "https://res.cloudinary.com/demo/image/upload/v1/thumbnails/a.png"
    (by decide)

/-! ### Unknown enum tags -/

/-- C8: a generate request whose style value is not a key of the style
table, with a supplied (non-empty) color scheme that is not a key of
the color table, is not rejected: the record is still created and the
provider still called, and the built prompt contains the literal text
"undefined" where each table clause would be. -/
theorem generate_unknown_tags_produce_undefined_text
    (uid : String) (body : GenBody) (newId : Nat)
    (pr : Except String GenResponse) (ur : Except String String)
    (c : String) (hs : stylePrompts body.style = none)
    (hcs : body.color_scheme = some c) (hc : c.isEmpty = false)
    (hlook : colorSchemeDescriptions c = none) :
    ∃ r p rest,
      generateThumbnail (some uid) body newId pr ur =
        Event.createRecord r ::
          Event.callProvider "gemini-3-pro-image-preview" p :: rest ∧
      0 < countOcc p "Create a undefined thumbnail for \"" ∧
      0 < countOcc p "Use a undefined color scheme. " := by
  obtain ⟨rest, h⟩ := generate_trace_shape uid body newId pr ur
  refine ⟨_, _, rest, h, ?_, ?_⟩
  · rw [buildPrompt_clauses, hs, hcs]
    simp only [tsInterp, truthy, hc, Bool.not_false, if_true,
      Option.getD_some, hlook]
    unfold countOcc
    simp only [data_append, List.append_assoc]
    exact countOccL_pos_head "Create a undefined thumbnail for \"".data
      (by decide) _
  · rw [buildPrompt_clauses, hs, hcs]
    simp only [tsInterp, truthy, hc, Bool.not_false, if_true,
      Option.getD_some, hlook]
    unfold countOcc
    simp only [data_append, List.append_assoc]
    apply countOccL_pos_append
    apply countOccL_pos_append
    apply countOccL_pos_append
    apply countOccL_pos_append
    apply countOccL_pos_append
    exact countOccL_pos_head "Use a undefined color scheme. ".data
      (by decide) _

/-- A body carrying a style and a color scheme missing from both
lookup tables. -/
def unknownBody : GenBody :=
  { title := "t", user_prompt := none, style := "Anime",
    aspect_ratio := none, color_scheme := some "rainbow",
    text_overlay := none }

/-- Concrete instance of C8 for style "Anime" and color scheme
"rainbow". -/
theorem generate_unknown_tags_produce_undefined_text_witness :
    ∃ r p rest,
      generateThumbnail (some "u") unknownBody 0
          (Except.error "e") (Except.ok "url") =
        Event.createRecord r ::
          Event.callProvider "gemini-3-pro-image-preview" p :: rest ∧
      0 < countOcc p "Create a undefined thumbnail for \"" ∧
      0 < countOcc p "Use a undefined color scheme. " :=
  generate_unknown_tags_produce_undefined_text "u" unknownBody 0
    (Except.error "e") (Except.ok "url") "rainbow" (by decide) (by decide)
    (by decide) (by decide)

end Thumblify
